import Mathlib

/-!
Verification of the AtmosphereData telemetry node of the 2025 Communicator
Badge repository.  The shallow embedding below translates the two variants of
`AtmosphereData` (`src/firmware/badge/apps/atmosdata.py`, called the firmware
variant, and `src/user_apps/airquality/atmosdata.py`, called the user_apps
variant) together with the version-0 template `src/firmware/badge/apps/userA.py`.

Modelling conventions:
* Numeric measurement and payload values are modelled as `Int`.  The claims
  about caching, version gating, role arbitration and rate limiting never
  compute on floating-point values, only move them around.
* Python exceptions are modelled with `Except`: a raise site produces
  `Except.error s` carrying the object state at the moment of the raise, and
  the bare `except:` handler of `poll_data` turns every such error back into
  a normal return.
* Python's dynamically typed `particle_measurement` field (a flat list of
  numbers in the firmware dummy data, a list of `[label, value]` pairs after
  an SPS30 read, a tuple of floats after a frame receipt) is modelled by the
  sum type `PVal`; subscripting a value with `[1]` succeeds only on a pair,
  exactly as in Python.
-/

/-- Protocol port from `Protocol(port=25, name="AtmosphereData", ...)`. -/
def ATMOS_PORT : Nat := 25

/-- Compiled frame version: `ATMOS_VERSION = 1` in the user_apps variant and
`self.ATMOS_VERSION = 1` in the firmware variant. -/
def ATMOS_VERSION : Int := 1

/-- `self.sensor_refresh_interval_ms = 5000`, used both as the sensor polling
interval and as the LoRa broadcast holdoff. -/
def sensor_refresh_interval_ms : Int := 5000

/-- I2C address of the SCD30 CO2 sensor (`scd30_address = 0x61`). -/
def scd30_address : Nat := 0x61

/-- I2C address of the SPS30 particulate sensor (`sps30_address = 0x69`). -/
def sps30_address : Nat := 0x69

/-- A dynamically typed entry of `particle_measurement`: either a bare number
(the firmware dummy data) or a `[label, value]` pair (the SPS30 driver's rows
and the user_apps dummy data). -/
inductive PVal where
  | num : Int → PVal
  | pair : String → Int → PVal
deriving DecidableEq

/-- The mutable state of an `AtmosphereData` instance: the fields assigned in
`__init__` that the telemetry logic reads and writes.  `screen_has_latest_data`
is the (inverted) dirty flag: `false` means the screen is stale. -/
structure AtmosState where
  producing_data : Bool
  co2_measurement : List Int
  particle_measurement : List PVal
  screen_has_latest_data : Bool
  last_transmission : Int
deriving DecidableEq

/-- A decoded inbound frame as handed to `receive_message`: the protocol port
and the payload tuple unpacked per the structdef (element 0 is the version). -/
structure NetworkFrame where
  port : Nat
  payload : List Int
deriving DecidableEq

/-- Presence of the SCD30 handle: `self.scd30` is non-`None` iff `0x61` was in
the I2C bus scan result (identical in both variants). -/
def scd30_handle (scan : List Nat) : Option Unit :=
  if scd30_address ∈ scan then some () else none

/-- Presence of the SPS30 handle: `self.sps30` is non-`None` iff `0x69` was in
the I2C bus scan result (identical in both variants). -/
def sps30_handle (scan : List Nat) : Option Unit :=
  if sps30_address ∈ scan then some () else none

/-- user_apps role rule: `self.producing_data = self.scd30 != None or
self.sps30 != None`. -/
def user_producing_data (scan : List Nat) : Bool :=
  (scd30_handle scan).isSome || (sps30_handle scan).isSome

/-- Firmware role rule: `self.producing_data` is assigned `True`/`False` only
inside the SCD30 branch of `__init__`; the SPS30 branch does not touch it. -/
def fw_producing_data (scan : List Nat) : Bool :=
  (scd30_handle scan).isSome

/-- The user_apps dummy `particle_measurement`: eleven `["", -1.0]` pairs
(`for idx in range(0, 4+5+2)`). -/
def user_init_particle : List PVal :=
  List.replicate 11 (PVal.pair "" (-1))

/-- State after the user_apps `__init__` given the I2C scan result. -/
def user_init_state (scan : List Nat) : AtmosState :=
  { producing_data := user_producing_data scan
    co2_measurement := [-1, -1, -1]
    particle_measurement := user_init_particle
    screen_has_latest_data := true
    last_transmission := 0 }

/-- State after the firmware `__init__` given the I2C scan result; its dummy
`particle_measurement` is the flat list `[-1, -1, -1, -1, -1]`. -/
def fw_init_state (scan : List Nat) : AtmosState :=
  { producing_data := fw_producing_data scan
    co2_measurement := [-1, -1, -1]
    particle_measurement := List.replicate 5 (PVal.num (-1))
    screen_has_latest_data := true
    last_transmission := 0 }

/-- Ports for which `start()` calls `register_receiver` in the user_apps
variant: only when not producing (`if not self.producing_data:`). -/
def user_start_registrations (st : AtmosState) : List Nat :=
  if st.producing_data then [] else [ATMOS_PORT]

/-- Ports for which `start()` calls `register_receiver` in the firmware
variant: unconditionally. -/
def fw_start_registrations (_st : AtmosState) : List Nat :=
  [ATMOS_PORT]

/-- user_apps `receive_message`: on a matching port and matching leading
version byte, stores the slices `payload[1:3]` and `payload[4:8]` and marks
the screen stale; otherwise leaves the state untouched. -/
def user_receive_message (st : AtmosState) (msg : NetworkFrame) : AtmosState :=
  if msg.port = ATMOS_PORT ∧ msg.payload.head? = some ATMOS_VERSION then
    { st with
      co2_measurement := (msg.payload.drop 1).take 2
      particle_measurement := ((msg.payload.drop 4).take 4).map PVal.num
      screen_has_latest_data := false }
  else st

/-- Firmware `receive_message`: same as the user_apps variant but additionally
guarded by `if not self.producing_data and ...`. -/
def fw_receive_message (st : AtmosState) (msg : NetworkFrame) : AtmosState :=
  if st.producing_data = false ∧ msg.port = ATMOS_PORT
      ∧ msg.payload.head? = some ATMOS_VERSION then
    { st with
      co2_measurement := (msg.payload.drop 1).take 2
      particle_measurement := ((msg.payload.drop 4).take 4).map PVal.num
      screen_has_latest_data := false }
  else st

/-- Per-tick behaviour of one sensor driver, as observed through the calls the
poll loop makes: the readiness predicate may return false, return true, or
raise; after a true readiness check the read may return a value or raise. -/
inductive SensorStep (α : Type) where
  | notReady : SensorStep α
  | readyRaise : SensorStep α
  | reading : α → SensorStep α
  | readRaise : SensorStep α
deriving DecidableEq

/-- The environment of a single `poll_data` call: the tick time, the behaviour
of each sensor (`none` when the handle is `None`), and whether the radio
`send` raises. -/
structure TickEnv where
  now : Int
  scd30 : Option (SensorStep (List Int))
  sps30 : Option (SensorStep (List (String × Int)))
  sendRaises : Bool
deriving DecidableEq

/-- Result of a completed `poll_data` call: the final state and the payload
tuple handed to `self.badge.lora.send`, if any. -/
structure PollResult where
  st : AtmosState
  sent : Option (List Int)
deriving DecidableEq

/-- Python subscript `pm[i][1]` on `particle_measurement`: `none` models the
exception raised on an out-of-range index or on subscripting a bare number. -/
def bucketVal (pm : List PVal) (i : Nat) : Option Int :=
  match pm.get? i with
  | none => none
  | some (PVal.num _) => none
  | some (PVal.pair _ v) => some v

/-- Building the transmit payload tuple: `(int(ATMOS_VERSION),
float(co2[0]), float(co2[1]), float(co2[2]), float(pm[4][1]), ...,
float(pm[8][1]))`; `none` models an exception raised during construction. -/
def build_payload (co2 : List Int) (pm : List PVal) : Option (List Int) :=
  match co2.get? 0, co2.get? 1, co2.get? 2,
      bucketVal pm 4, bucketVal pm 5, bucketVal pm 6, bucketVal pm 7,
      bucketVal pm 8 with
  | some a, some b, some c, some p4, some p5, some p6, some p7, some p8 =>
      some [ATMOS_VERSION, a, b, c, p4, p5, p6, p7, p8]
  | _, _, _, _, _, _, _, _ => none

/-- The SCD30 block of `poll_data`: `if self.scd30 and
self.scd30.get_status_ready(): self.screen_has_latest_data = False;
transmit_new_data = True; self.co2_measurement = self.scd30.read_measurement()`.
The dirty flag is set before the read, so a raising read leaves it set. -/
def scd30_step (o : Option (SensorStep (List Int))) (st : AtmosState) :
    Except AtmosState (AtmosState × Bool) :=
  match o with
  | none => Except.ok (st, false)
  | some SensorStep.notReady => Except.ok (st, false)
  | some SensorStep.readyRaise => Except.error st
  | some (SensorStep.reading r) =>
      Except.ok ({ st with screen_has_latest_data := false,
                           co2_measurement := r }, true)
  | some SensorStep.readRaise =>
      Except.error { st with screen_has_latest_data := false }

/-- The SPS30 block of `poll_data`, threading the `transmit_new_data` flag
accumulated so far; an SPS30 reading is stored as `[label, value]` rows. -/
def sps30_step (o : Option (SensorStep (List (String × Int))))
    (st : AtmosState) (tx : Bool) : Except AtmosState (AtmosState × Bool) :=
  match o with
  | none => Except.ok (st, tx)
  | some SensorStep.notReady => Except.ok (st, tx)
  | some SensorStep.readyRaise => Except.error st
  | some (SensorStep.reading r) =>
      Except.ok ({ st with screen_has_latest_data := false,
                           particle_measurement :=
                             r.map (fun p => PVal.pair p.1 p.2) }, true)
  | some SensorStep.readRaise =>
      Except.error { st with screen_has_latest_data := false }

/-- The transmit block of `poll_data`: `if transmit_new_data and
(now - self.last_transmission) > self.sensor_refresh_interval_ms:` build the
payload, `self.badge.lora.send(tx_msg)`, then
`self.last_transmission = now`.  Payload construction or `send` may raise. -/
def transmit_step (env : TickEnv) (st : AtmosState) (tx : Bool) :
    Except AtmosState PollResult :=
  if tx = true ∧ env.now - st.last_transmission > sensor_refresh_interval_ms then
    match build_payload st.co2_measurement st.particle_measurement with
    | none => Except.error st
    | some payload =>
        if env.sendRaises then Except.error st
        else Except.ok ⟨{ st with last_transmission := env.now }, some payload⟩
  else Except.ok ⟨st, none⟩

/-- The body of the `try:` block of `poll_data` (identical in both variants),
sequencing the SCD30 block, the SPS30 block and the transmit block; an
`Except.error` is an exception propagating out of the body. -/
def poll_body (env : TickEnv) (st : AtmosState) : Except AtmosState PollResult :=
  match scd30_step env.scd30 st with
  | Except.error s => Except.error s
  | Except.ok (s1, tx1) =>
      match sps30_step env.sps30 s1 tx1 with
      | Except.error s => Except.error s
      | Except.ok (s2, tx2) => transmit_step env s2 tx2

/-- `poll_data` (identical in both variants): return immediately when not
producing, otherwise run the body under a bare `except:` that swallows every
exception.  The `Except` codomain records whether an exception escapes to the
caller; the definition shows the handler converting every body error into a
normal return. -/
def poll_data (env : TickEnv) (st : AtmosState) : Except AtmosState PollResult :=
  if st.producing_data = false then Except.ok ⟨st, none⟩
  else
    match poll_body env st with
    | Except.error s => Except.ok ⟨s, none⟩
    | Except.ok r => Except.ok r

/-- The stale-screen check shared by user_apps `refresh_labels` and firmware
`run_foreground`: if the screen already has the latest data do nothing and
report no repaint; otherwise mark it current and repaint. -/
def consume_dirty (st : AtmosState) : Bool × AtmosState :=
  if st.screen_has_latest_data then (false, st)
  else (true, { st with screen_has_latest_data := true })

/-- Repeated consumption of the dirty flag, collecting whether each call
repainted. -/
def consumeN : AtmosState → Nat → List Bool
  | _, 0 => []
  | st, n + 1 =>
      let p := consume_dirty st
      p.1 :: consumeN p.2 n

/-- The structdef of the version-1 protocol, from
`Protocol(port=25, name="AtmosphereData", structdef="!Bffffffff")` in both
atmosdata variants. -/
def ATMOS_STRUCTDEF : String := "!Bffffffff"

/-- The structdef of the version-0 protocol, from
`Protocol(port=25, name="AtmosphereData", structdef="!Bfff")` in `userA.py`. -/
def USERA_STRUCTDEF : String := "!Bfff"

/-- A field of a struct format string: `B` (uint8) or `f` (float32). -/
inductive StructField where
  | B : StructField
  | f : StructField
deriving DecidableEq

/-- Modelled from the spec: the field letters of the MicroPython `struct`
format subset the badge uses (§6 wire-format table; the `struct` library
itself is not part of the sources under verification). -/
def fmtChar : Char → Option StructField
  | 'B' => some StructField.B
  | 'f' => some StructField.f
  | _ => none

/-- Modelled from the spec: parsing a structdef string of the form
`"!" ++ fields`, where the leading `!` selects big-endian standard-size
packing with no padding. -/
def parseFmt (s : String) : Option (List StructField) :=
  match s.data with
  | [] => none
  | c :: rest => if c = '!' then rest.mapM fmtChar else none

/-- A value handed to the packer: a `B` integer, or a float32 given by its
IEEE-754 bit pattern. -/
inductive PackVal where
  | uint : Nat → PackVal
  | float32 : Nat → PackVal
deriving DecidableEq

/-- Big-endian serialization of a 32-bit pattern into four bytes. -/
def beBytes32 (x : Nat) : List Nat :=
  [x / 2 ^ 24 % 256, x / 2 ^ 16 % 256, x / 2 ^ 8 % 256, x % 256]

/-- Modelled from the spec: packing one field.  A `B` field is one byte and
raises unless the value fits; an `f` field is the four big-endian bytes of the
value's IEEE-754 float32 bit pattern. -/
def packField : StructField → PackVal → Option (List Nat)
  | StructField.B, PackVal.uint n => if n < 256 then some [n] else none
  | StructField.f, PackVal.float32 x => some (beBytes32 x)
  | _, _ => none

/-- Modelled from the spec: `struct.pack` over a parsed format, concatenating
the per-field encodings; fails when arity or field kinds do not match. -/
def pack : List StructField → List PackVal → Option (List Nat)
  | [], [] => some []
  | fld :: fs, v :: vs =>
      match packField fld v, pack fs vs with
      | some b, some rest => some (b ++ rest)
      | _, _ => none
  | _, _ => none

/-- The parsed version-0 format: one `B` and three `f` fields. -/
def fmt_v0 : List StructField :=
  [StructField.B, StructField.f, StructField.f, StructField.f]

/-- The parsed version-1 format: one `B` and eight `f` fields. -/
def fmt_v1 : List StructField :=
  StructField.B :: List.replicate 8 StructField.f

/-- A consumer-side state for exercising the receive handler: the user_apps
initial state on an empty bus. -/
def consumer_init : AtmosState := user_init_state []

/-- A well-formed version-1 frame on the telemetry port, with distinct values
in every field: version 1, CO2 412, temperature 23, humidity 41, and the five
particle buckets 10, 20, 30, 40, 50. -/
def c1_frame : NetworkFrame :=
  ⟨25, [1, 412, 23, 41, 10, 20, 30, 40, 50]⟩

/-- Claim C1: evaluation of the receive handler on a matching version-1 frame.
The handler does set the dirty flag, but it stores `payload[1:3]` — only the
CO2 and temperature values, dropping humidity — and `payload[4:8]` — only the
first four particle buckets, dropping the fifth — instead of the full
three-element CO2 triple and the full five-element bucket array. -/
theorem C1_receive_drops_fields :
    (user_receive_message consumer_init c1_frame).co2_measurement = [412, 23]
    ∧ (user_receive_message consumer_init c1_frame).particle_measurement
        = [PVal.num 10, PVal.num 20, PVal.num 30, PVal.num 40]
    ∧ (user_receive_message consumer_init c1_frame).screen_has_latest_data
        = false
    ∧ (user_receive_message consumer_init c1_frame).co2_measurement.length ≠ 3
    ∧ (user_receive_message consumer_init c1_frame).particle_measurement.length
        ≠ 5
    ∧ fw_receive_message consumer_init c1_frame
        = user_receive_message consumer_init c1_frame := by
  decide

/-- Claim C2, counterexample: a bus containing only the particulate sensor
address 0x69 yields a sensor handle, yet the firmware variant's role is
Consumer — refuting "Producer iff at least one of the two sensors is found"
for that variant. -/
theorem C2_counterexample :
    sps30_handle [0x69] = some () ∧ fw_producing_data [0x69] = false := by
  decide

/-- Claim C2 as amended: the user_apps variant is Producer iff at least one of
the two sensor addresses is in the scan, while the firmware variant is
Producer iff the CO2 sensor address is in the scan (the particulate sensor
alone does not make it a Producer).  In both variants a CO2-only bus yields a
Producer with the particulate handle absent, and an empty bus a Consumer. -/
theorem C2_amended_role_rule (scan : List Nat) :
    (user_producing_data scan = true
      ↔ (scd30_address ∈ scan ∨ sps30_address ∈ scan))
    ∧ (fw_producing_data scan = true ↔ scd30_address ∈ scan)
    ∧ user_producing_data [scd30_address] = true
    ∧ fw_producing_data [scd30_address] = true
    ∧ sps30_handle [scd30_address] = none
    ∧ user_producing_data [] = false
    ∧ fw_producing_data [] = false := by
  refine ⟨?_, ?_, by decide, by decide, by decide, by decide, by decide⟩
  · simp [user_producing_data, scd30_handle, sps30_handle]
  · simp [fw_producing_data, scd30_handle]

/-- Claim C3, counterexample: a firmware node whose scan found the CO2 sensor
is a Producer, yet its `start()` still registers the telemetry receive
callback — refuting "the receiver registration happens exactly when the role
is Consumer". -/
theorem C3_counterexample :
    (fw_init_state [0x61]).producing_data = true
    ∧ fw_start_registrations (fw_init_state [0x61]) = [ATMOS_PORT] := by
  decide

/-- Claim C3 as amended: in the user_apps variant `start()` registers the
telemetry receive callback exactly when the node is a Consumer; in the
firmware variant `start()` registers it for every role. -/
theorem C3_amended_registration (st : AtmosState) :
    (user_start_registrations st = [ATMOS_PORT] ↔ st.producing_data = false)
    ∧ (user_start_registrations st = [] ↔ st.producing_data = true)
    ∧ fw_start_registrations st = [ATMOS_PORT] := by
  cases h : st.producing_data <;>
    simp [user_start_registrations, fw_start_registrations, h]

/-- Claim C7: a received frame whose leading version field differs from the
node's compiled version leaves the state of either variant completely
unchanged — no cache field is written and the dirty flag is not set. -/
theorem C7_version_mismatch_ignored (st : AtmosState) (msg : NetworkFrame)
    (v : Int) (hv : msg.payload.head? = some v) (hne : v ≠ ATMOS_VERSION) :
    user_receive_message st msg = st ∧ fw_receive_message st msg = st := by
  have hvne : msg.payload.head? ≠ some ATMOS_VERSION := by
    rw [hv]
    intro h
    exact hne (Option.some.injEq .. ▸ h)
  constructor
  · unfold user_receive_message
    rw [if_neg]
    intro h
    exact hvne h.2
  · unfold fw_receive_message
    rw [if_neg]
    intro h
    exact hvne h.2.2

/-- Witness for C7: a version-0 frame received by a node compiled for
version 1 is discarded by both variants. -/
theorem C7_version_mismatch_witness :
    user_receive_message consumer_init ⟨25, [0, 412, 23, 41]⟩ = consumer_init
    ∧ fw_receive_message consumer_init ⟨25, [0, 412, 23, 41]⟩ = consumer_init :=
  C7_version_mismatch_ignored consumer_init ⟨25, [0, 412, 23, 41]⟩ 0 rfl
    (by decide)

/-- Claim C10: in the firmware variant an inbound frame never mutates a
Producer's state — `receive_message` is the identity whenever
`producing_data` is true, regardless of the frame. -/
theorem C10_producer_receive_noop (st : AtmosState) (msg : NetworkFrame)
    (h : st.producing_data = true) : fw_receive_message st msg = st := by
  unfold fw_receive_message
  rw [if_neg]
  intro hc
  rw [h] at hc
  exact Bool.noConfusion hc.1

/-- Witness for C10: a firmware Producer receiving a well-formed version-1
frame keeps its state unchanged. -/
theorem C10_producer_receive_noop_witness :
    fw_receive_message (fw_init_state [0x61]) c1_frame = fw_init_state [0x61] :=
  C10_producer_receive_noop (fw_init_state [0x61]) c1_frame rfl

/-- If the transmit block completes with a sent payload, then the new-data
flag was set, the holdoff had elapsed, and `last_transmission` was updated to
the tick's `now`. -/
theorem transmit_step_sent (env : TickEnv) (s : AtmosState) (tx : Bool)
    (r : PollResult) (h : transmit_step env s tx = Except.ok r)
    (hs : r.sent ≠ none) :
    tx = true ∧ env.now - s.last_transmission > sensor_refresh_interval_ms
      ∧ r.st.last_transmission = env.now := by
  unfold transmit_step at h
  split at h
  case isTrue hc =>
    split at h
    case h_1 => exact Except.noConfusion h
    case h_2 payload hpay =>
      split at h
      case isTrue => exact Except.noConfusion h
      case isFalse =>
        injection h with h
        subst h
        exact ⟨hc.1, hc.2, rfl⟩
  case isFalse hc =>
    injection h with h
    subst h
    exact absurd rfl hs

/-- The SCD30 block never changes `last_transmission`, and it reports new
data only when the driver returned a reading. -/
theorem scd30_step_ok (o : Option (SensorStep (List Int))) (st s : AtmosState)
    (tx : Bool) (h : scd30_step o st = Except.ok (s, tx)) :
    s.last_transmission = st.last_transmission
    ∧ (tx = true → ∃ v, o = some (SensorStep.reading v)) := by
  match o with
  | none =>
    injection h with h
    obtain ⟨h1, h2⟩ := Prod.mk.injEq .. ▸ h
    subst h1; subst h2
    exact ⟨rfl, fun hf => Bool.noConfusion hf⟩
  | some SensorStep.notReady =>
    injection h with h
    obtain ⟨h1, h2⟩ := Prod.mk.injEq .. ▸ h
    subst h1; subst h2
    exact ⟨rfl, fun hf => Bool.noConfusion hf⟩
  | some SensorStep.readyRaise => exact Except.noConfusion h
  | some (SensorStep.reading v) =>
    injection h with h
    obtain ⟨h1, h2⟩ := Prod.mk.injEq .. ▸ h
    subst h1
    exact ⟨rfl, fun _ => ⟨v, rfl⟩⟩
  | some SensorStep.readRaise => exact Except.noConfusion h

/-- The SPS30 block never changes `last_transmission`, and its outgoing
new-data flag is true only if the incoming one was or the driver returned a
reading. -/
theorem sps30_step_ok (o : Option (SensorStep (List (String × Int))))
    (st s : AtmosState) (tx0 tx : Bool)
    (h : sps30_step o st tx0 = Except.ok (s, tx)) :
    s.last_transmission = st.last_transmission
    ∧ (tx = true → tx0 = true ∨ ∃ v, o = some (SensorStep.reading v)) := by
  match o with
  | none =>
    injection h with h
    obtain ⟨h1, h2⟩ := Prod.mk.injEq .. ▸ h
    subst h1; subst h2
    exact ⟨rfl, fun hf => Or.inl hf⟩
  | some SensorStep.notReady =>
    injection h with h
    obtain ⟨h1, h2⟩ := Prod.mk.injEq .. ▸ h
    subst h1; subst h2
    exact ⟨rfl, fun hf => Or.inl hf⟩
  | some SensorStep.readyRaise => exact Except.noConfusion h
  | some (SensorStep.reading v) =>
    injection h with h
    obtain ⟨h1, h2⟩ := Prod.mk.injEq .. ▸ h
    subst h1
    exact ⟨rfl, fun _ => Or.inr ⟨v, rfl⟩⟩
  | some SensorStep.readRaise => exact Except.noConfusion h

/-- Unfolding `poll_body` when the SCD30 block raises. -/
theorem poll_body_err (env : TickEnv) (st s : AtmosState)
    (h : scd30_step env.scd30 st = Except.error s) :
    poll_body env st = Except.error s := by
  unfold poll_body
  rw [h]

/-- Unfolding `poll_body` past a normally completing SCD30 block. -/
theorem poll_body_eq (env : TickEnv) (st s1 : AtmosState) (tx1 : Bool)
    (h : scd30_step env.scd30 st = Except.ok (s1, tx1)) :
    poll_body env st
      = match sps30_step env.sps30 s1 tx1 with
        | Except.error s => Except.error s
        | Except.ok (s2, tx2) => transmit_step env s2 tx2 := by
  unfold poll_body
  rw [h]

/-- If the body of a poll sends a payload, then the holdoff had elapsed
relative to the pre-poll `last_transmission`, the post-poll
`last_transmission` equals `now`, and at least one sensor returned a
reading this tick. -/
theorem poll_body_sent (env : TickEnv) (st : AtmosState) (r : PollResult)
    (h : poll_body env st = Except.ok r) (hs : r.sent ≠ none) :
    env.now - st.last_transmission > sensor_refresh_interval_ms
    ∧ r.st.last_transmission = env.now
    ∧ ((∃ v, env.scd30 = some (SensorStep.reading v))
        ∨ (∃ v, env.sps30 = some (SensorStep.reading v))) := by
  cases h1 : scd30_step env.scd30 st with
  | error s =>
    rw [poll_body_err env st s h1] at h
    exact Except.noConfusion h
  | ok p =>
    obtain ⟨s1, tx1⟩ := p
    rw [poll_body_eq env st s1 tx1 h1] at h
    cases h2 : sps30_step env.sps30 s1 tx1 with
    | error s =>
      rw [h2] at h
      exact Except.noConfusion h
    | ok q =>
      obtain ⟨s2, tx2⟩ := q
      rw [h2] at h
      obtain ⟨htx2, hgt, hlast⟩ := transmit_step_sent env s2 tx2 r h hs
      obtain ⟨hl1, hnew1⟩ := scd30_step_ok env.scd30 st s1 tx1 h1
      obtain ⟨hl2, hnew2⟩ := sps30_step_ok env.sps30 s1 s2 tx1 tx2 h2
      refine ⟨by rw [← hl1, ← hl2]; exact hgt, hlast, ?_⟩
      rcases hnew2 htx2 with htx1 | hv
      · exact Or.inl (hnew1 htx1)
      · exact Or.inr hv

/-- If `poll_data` reports a sent payload, the same conclusions hold of the
poll as a whole. -/
theorem poll_data_sent (env : TickEnv) (st : AtmosState) (r : PollResult)
    (h : poll_data env st = Except.ok r) (hs : r.sent ≠ none) :
    env.now - st.last_transmission > sensor_refresh_interval_ms
    ∧ r.st.last_transmission = env.now
    ∧ ((∃ v, env.scd30 = some (SensorStep.reading v))
        ∨ (∃ v, env.sps30 = some (SensorStep.reading v))) := by
  unfold poll_data at h
  split at h
  case isTrue =>
    injection h with h
    subst h
    exact absurd rfl hs
  case isFalse =>
    cases hb : poll_body env st with
    | error s =>
      rw [hb] at h
      injection h with h
      subst h
      exact absurd rfl hs
    | ok r0 =>
      rw [hb] at h
      injection h with h
      subst h
      exact poll_body_sent env st r0 hb hs

/-- The user_apps initial state of a Producer that found only the CO2
sensor. -/
def c4_s0 : AtmosState := user_init_state [0x61]

/-- State after the poll at t=0 stored the reading `[412, 23, 41]`. -/
def c4_s1 : AtmosState :=
  { c4_s0 with screen_has_latest_data := false, co2_measurement := [412, 23, 41] }

/-- State after the poll at t=2000 stored the reading `[413, 23, 41]`. -/
def c4_s2 : AtmosState :=
  { c4_s1 with screen_has_latest_data := false, co2_measurement := [413, 23, 41] }

/-- State after the poll at t=5001 stored `[414, 24, 42]` and transmitted. -/
def c4_s3 : AtmosState :=
  { c4_s2 with screen_has_latest_data := false, co2_measurement := [414, 24, 42],
               last_transmission := 5001 }

/-- The payload broadcast at t=5001: version 1, the CO2 triple, and the five
dummy bucket values still in the cache. -/
def c4_pay : List Int := [1, 414, 24, 42, -1, -1, -1, -1, -1]

/-- Claim C4, counterexample: with `last_transmission` initially 0, a fresh
reading at t=0 does not trigger a transmission (the poll stores the reading
but sends nothing), because `0 - 0 > 5000` is false — refuting "a true
have_new_data at t=0 triggers transmission". -/
theorem C4_counterexample :
    c4_s0.last_transmission = 0
    ∧ poll_data ⟨0, some (SensorStep.reading [412, 23, 41]), none, false⟩ c4_s0
        = Except.ok ⟨c4_s1, none⟩ :=
  ⟨rfl, rfl⟩

/-- Claim C4 as amended: a poll transmits only when new data arrived this
tick and `now - last_transmission > 5000`, and a completed transmission sets
`last_transmission` to the tick's `now`; with `last_transmission` initially
0, a fresh reading at t=0 does not transmit, one at t=2000 does not, and one
at t=5001 does. -/
theorem C4_amended_rate_limiter :
    (∀ env st r, poll_data env st = Except.ok r → r.sent ≠ none →
      env.now - st.last_transmission > sensor_refresh_interval_ms
      ∧ r.st.last_transmission = env.now
      ∧ ((∃ v, env.scd30 = some (SensorStep.reading v))
          ∨ (∃ v, env.sps30 = some (SensorStep.reading v))))
    ∧ poll_data ⟨0, some (SensorStep.reading [412, 23, 41]), none, false⟩ c4_s0
        = Except.ok ⟨c4_s1, none⟩
    ∧ poll_data ⟨2000, some (SensorStep.reading [413, 23, 41]), none, false⟩
        c4_s1 = Except.ok ⟨c4_s2, none⟩
    ∧ poll_data ⟨5001, some (SensorStep.reading [414, 24, 42]), none, false⟩
        c4_s2 = Except.ok ⟨c4_s3, some c4_pay⟩
    ∧ c4_s3.last_transmission = 5001 :=
  ⟨poll_data_sent, rfl, rfl, rfl, rfl⟩

/-- Witness for C4: the rate-limiter conclusions at the concrete t=5001
transmission. -/
theorem C4_amended_rate_limiter_witness :
    (5001 : Int) - c4_s2.last_transmission > sensor_refresh_interval_ms
    ∧ c4_s3.last_transmission = 5001
    ∧ ((∃ v, (some (SensorStep.reading [414, 24, 42])
          : Option (SensorStep (List Int))) = some (SensorStep.reading v))
        ∨ (∃ v, (none : Option (SensorStep (List (String × Int))))
            = some (SensorStep.reading v))) :=
  C4_amended_rate_limiter.1
    ⟨5001, some (SensorStep.reading [414, 24, 42]), none, false⟩ c4_s2
    ⟨c4_s3, some c4_pay⟩ rfl (by simp)

/-- Claim C5, counterexample: starting from a clean screen, a tick in which
the CO2 sensor reports ready and then the read raises flips
`screen_has_latest_data` from true to false — the dirty flag is mutated by
the faulting poll, refuting "the dirty flag is unchanged". -/
theorem C5_counterexample :
    c4_s0.screen_has_latest_data = true
    ∧ poll_data ⟨0, some SensorStep.readRaise, none, false⟩ c4_s0
        = Except.ok ⟨{ c4_s0 with screen_has_latest_data := false }, none⟩ :=
  ⟨rfl, rfl⟩

/-- Claim C5 as amended: a tick whose ready sensor read faults leaves the
cached measurements and `last_transmission` unchanged and broadcasts nothing,
but sets the dirty flag (which was written before the faulting read). -/
theorem C5_amended_fault_isolation (st : AtmosState) (env : TickEnv)
    (hp : st.producing_data = true) :
    (env.scd30 = some SensorStep.readRaise →
      poll_data env st
        = Except.ok ⟨{ st with screen_has_latest_data := false }, none⟩)
    ∧ (env.sps30 = some SensorStep.readRaise →
        (env.scd30 = none ∨ env.scd30 = some SensorStep.notReady
          ∨ ∃ v, env.scd30 = some (SensorStep.reading v)) →
        ∃ s, poll_data env st = Except.ok ⟨s, none⟩
          ∧ s.particle_measurement = st.particle_measurement
          ∧ s.last_transmission = st.last_transmission
          ∧ s.screen_has_latest_data = false) := by
  have hnp : ¬ st.producing_data = false := by simp [hp]
  constructor
  · intro hscd
    have herr : poll_body env st
        = Except.error { st with screen_has_latest_data := false } :=
      poll_body_err env st _ (by rw [hscd]; rfl)
    unfold poll_data
    rw [if_neg hnp, herr]
  · intro hsps hscd
    rcases hscd with h0 | h0 | ⟨v, h0⟩
    · refine ⟨{ st with screen_has_latest_data := false }, ?_, rfl, rfl, rfl⟩
      unfold poll_data
      rw [if_neg hnp, poll_body_eq env st st false (by rw [h0]; rfl), hsps]
      rfl
    · refine ⟨{ st with screen_has_latest_data := false }, ?_, rfl, rfl, rfl⟩
      unfold poll_data
      rw [if_neg hnp, poll_body_eq env st st false (by rw [h0]; rfl), hsps]
      rfl
    · refine ⟨{ st with screen_has_latest_data := false,
                        co2_measurement := v }, ?_, rfl, rfl, rfl⟩
      unfold poll_data
      rw [if_neg hnp,
        poll_body_eq env st
          { st with screen_has_latest_data := false, co2_measurement := v }
          true (by rw [h0]; rfl), hsps]
      rfl

/-- Witness for C5: a CO2-only Producer whose ready read faults at t=0 ends
the tick with only the dirty flag changed and nothing sent. -/
theorem C5_amended_fault_isolation_witness :
    ((⟨0, some SensorStep.readRaise, none, false⟩ : TickEnv).scd30
        = some SensorStep.readRaise →
      poll_data ⟨0, some SensorStep.readRaise, none, false⟩ c4_s0
        = Except.ok ⟨{ c4_s0 with screen_has_latest_data := false }, none⟩)
    ∧ ((⟨0, some SensorStep.readRaise, none, false⟩ : TickEnv).sps30
          = some SensorStep.readRaise →
        ((⟨0, some SensorStep.readRaise, none, false⟩ : TickEnv).scd30 = none
          ∨ (⟨0, some SensorStep.readRaise, none, false⟩ : TickEnv).scd30
              = some SensorStep.notReady
          ∨ ∃ v, (⟨0, some SensorStep.readRaise, none, false⟩ : TickEnv).scd30
              = some (SensorStep.reading v)) →
        ∃ s, poll_data ⟨0, some SensorStep.readRaise, none, false⟩ c4_s0
            = Except.ok ⟨s, none⟩
          ∧ s.particle_measurement = c4_s0.particle_measurement
          ∧ s.last_transmission = c4_s0.last_transmission
          ∧ s.screen_has_latest_data = false) :=
  C5_amended_fault_isolation c4_s0 ⟨0, some SensorStep.readRaise, none, false⟩
    rfl

/-- Claim C6: no exception raised by a readiness check, a read, payload
construction, or the radio send ever escapes `poll_data` — every invocation
returns normally — while the body alone does raise in each of those
situations, showing the bare handler is what stops them. -/
theorem C6_no_exception_escapes :
    (∀ env st, ∃ r, poll_data env st = Except.ok r)
    ∧ poll_body ⟨0, some SensorStep.readyRaise, none, false⟩ c4_s0
        = Except.error c4_s0
    ∧ poll_body ⟨0, some SensorStep.readRaise, none, false⟩ c4_s0
        = Except.error { c4_s0 with screen_has_latest_data := false }
    ∧ poll_body ⟨6000, some (SensorStep.reading [412, 23, 41]), none, true⟩
        c4_s0
        = Except.error
            { c4_s0 with screen_has_latest_data := false,
                         co2_measurement := [412, 23, 41] } := by
  refine ⟨fun env st => ?_, rfl, rfl, rfl⟩
  by_cases hp : st.producing_data = false
  · exact ⟨⟨st, none⟩, by unfold poll_data; rw [if_pos hp]⟩
  · cases hb : poll_body env st with
    | error s => exact ⟨⟨s, none⟩, by unfold poll_data; rw [if_neg hp, hb]⟩
    | ok r => exact ⟨r, by unfold poll_data; rw [if_neg hp, hb]⟩

/-- A clean screen stays clean: consuming the dirty flag any number of times
reports no repaint. -/
theorem consumeN_clean (st : AtmosState) (h : st.screen_has_latest_data = true) :
    ∀ n, consumeN st n = List.replicate n false := by
  intro n
  induction n with
  | zero => rfl
  | succ n ih => simp [consumeN, consume_dirty, h, ih, List.replicate]

/-- Claim C9 as amended: for consumptions following a cache update (which
leaves `screen_has_latest_data` false), the first consumption reports a
repaint and every later one reports none until the next update; ticks whose
ready sensor read faults are excluded, since such a tick also marks the flag
dirty and causes one extra repaint with unchanged data. -/
theorem C9_amended_consume_once (st : AtmosState) (n : Nat)
    (h : st.screen_has_latest_data = false) :
    consumeN st (n + 1) = true :: List.replicate n false := by
  have h2 : consume_dirty st
      = (true, { st with screen_has_latest_data := true }) := by
    simp [consume_dirty, h]
  simp [consumeN, h2,
    consumeN_clean { st with screen_has_latest_data := true } rfl]

/-- Witness for C9: a consumer that just stored a received frame repaints on
the first consumption and not on the two following ones. -/
theorem C9_amended_consume_once_witness :
    consumeN (user_receive_message consumer_init c1_frame) (2 + 1)
      = true :: List.replicate 2 false :=
  C9_amended_consume_once (user_receive_message consumer_init c1_frame) 2 rfl

/-- The Producer state of `c4_s1` after its repaint: the screen is current
again. -/
def c9_s2 : AtmosState := { c4_s1 with screen_has_latest_data := true }

/-- State after a subsequent tick whose ready CO2 read faulted: only the
dirty flag differs from `c9_s2`. -/
def c9_s3 : AtmosState := { c9_s2 with screen_has_latest_data := false }

/-- Claim C9, counterexample: after a successful poll and its repaint, a tick
whose ready CO2 read faults leaves every measurement unchanged yet makes the
next consumption of the dirty flag return true again — a second repaint with
no cache update in between, refuting "true exactly once per update". -/
theorem C9_counterexample :
    poll_data ⟨0, some (SensorStep.reading [412, 23, 41]), none, false⟩ c4_s0
        = Except.ok ⟨c4_s1, none⟩
    ∧ consume_dirty c4_s1 = (true, c9_s2)
    ∧ poll_data ⟨100, some SensorStep.readRaise, none, false⟩ c9_s2
        = Except.ok ⟨c9_s3, none⟩
    ∧ c9_s3.co2_measurement = c9_s2.co2_measurement
    ∧ c9_s3.particle_measurement = c9_s2.particle_measurement
    ∧ (consume_dirty c9_s3).1 = true :=
  ⟨rfl, rfl, rfl, rfl, rfl, rfl⟩

/-- Claim C8: the structdef strings of the sources parse to the version-0 and
version-1 formats; packing a version-0 payload yields exactly 13 bytes whose
byte 0 is 0x00 followed by the three big-endian float32 encodings in order
with no padding, and packing a version-1 payload yields exactly 33 bytes,
appending the five big-endian float32 particle buckets. -/
theorem C8_wire_layout (a b c p0 p1 p2 p3 p4 : Nat) :
    parseFmt USERA_STRUCTDEF = some fmt_v0
    ∧ parseFmt ATMOS_STRUCTDEF = some fmt_v1
    ∧ pack fmt_v0
        [PackVal.uint 0, PackVal.float32 a, PackVal.float32 b,
         PackVal.float32 c]
      = some (0 :: (beBytes32 a ++ beBytes32 b ++ beBytes32 c))
    ∧ (0 :: (beBytes32 a ++ beBytes32 b ++ beBytes32 c)).length = 13
    ∧ pack fmt_v1
        [PackVal.uint 1, PackVal.float32 a, PackVal.float32 b,
         PackVal.float32 c, PackVal.float32 p0, PackVal.float32 p1,
         PackVal.float32 p2, PackVal.float32 p3, PackVal.float32 p4]
      = some (1 :: (beBytes32 a ++ beBytes32 b ++ beBytes32 c
          ++ (beBytes32 p0 ++ beBytes32 p1 ++ beBytes32 p2 ++ beBytes32 p3
              ++ beBytes32 p4)))
    ∧ (1 :: (beBytes32 a ++ beBytes32 b ++ beBytes32 c
          ++ (beBytes32 p0 ++ beBytes32 p1 ++ beBytes32 p2 ++ beBytes32 p3
              ++ beBytes32 p4))).length = 33 := by
  refine ⟨by decide, by decide, ?_, ?_, ?_, ?_⟩ <;>
    simp [pack, packField, beBytes32, fmt_v0, fmt_v1]

